import Mathlib

/-!
Verification of the MCP weather-agent repository core:
the task classifier and location resolver (`simple_orchestrator.py`),
the multi-source consensus engine (`weather_intelligence_agent.py`),
and the smart alert agent (`smart_alert_agent.py`).

Modelling conventions:
* Python strings are Lean `String`s; `str.lower()` is `lowerStr`
  (character-wise ASCII lowering, which agrees with Python on the ASCII
  inputs used throughout the repository).
* Python `needle in haystack` substring tests are `strContains`.
* Python real arithmetic (`statistics.mean`, `statistics.variance`,
  `round(x, n)`) is modelled exactly over `ℚ`; Python `round` is
  round-half-to-even (`roundHalfEven`).
* Network fetches are abstracted as explicit oracle parameters: each
  fetcher is a function supplied to the embedded operation, and a failed
  or exception-raising fetch is `Option.none` / an error constructor.
-/

/-! ### String primitives -/

/-- ASCII lowering of one character, as Python `str.lower` acts on the
ASCII strings appearing in this repository. -/
def lowerChar (c : Char) : Char := c.toLower

/-- ASCII uppering of one character. -/
def upperChar (c : Char) : Char := c.toUpper

/-- Python `s.lower()` on ASCII strings. -/
def lowerStr (s : String) : String := String.mk (s.data.map lowerChar)

/-- The test `isPrefixL n h` decides whether list `n` is a prefix of list `h`
(the base case makes `[]` a prefix of everything, matching Python where
`"" in s` is `True`). -/
def isPrefixL : List Char → List Char → Bool
  | [], _ => true
  | _ :: _, [] => false
  | a :: as, b :: bs => a == b && isPrefixL as bs

/-- The test `hasSubstr n h` decides whether `n` occurs contiguously inside `h`;
this is Python `n in h` for strings. -/
def hasSubstr (needle : List Char) : List Char → Bool
  | [] => isPrefixL needle []
  | b :: bs => isPrefixL needle (b :: bs) || hasSubstr needle bs

/-- Python `needle in hay` on strings. -/
def strContains (hay needle : String) : Bool := hasSubstr needle.data hay.data

/-- Python `"sep".join(l)`. -/
def joinWith (sep : String) : List String → String
  | [] => ""
  | [x] => x
  | x :: y :: xs => x ++ sep ++ joinWith sep (y :: xs)

/-- Python `str.title()` restricted to the ASCII gazetteer entries:
a letter is uppercased when the previous character is not a letter.
The boolean argument records whether the previous character was a letter. -/
def titleChars : Bool → List Char → List Char
  | _, [] => []
  | prevAlpha, c :: cs =>
    (if prevAlpha then lowerChar c else upperChar c) :: titleChars c.isAlpha cs

/-- Python `s.title()`. -/
def toTitle (s : String) : String := String.mk (titleChars false s.data)

/-- The value `firstIdx n h` is the index of the first occurrence of `n` inside `h`,
if any (Python `h.find(n)` when the result is non-negative). -/
def firstIdx (needle : List Char) : List Char → Option Nat
  | [] => if isPrefixL needle [] then some 0 else none
  | c :: cs =>
    if isPrefixL needle (c :: cs) then some 0
    else (firstIdx needle cs).map (· + 1)

/-- Order-preserving de-duplication keeping the FIRST occurrence of each
element, i.e. Python `list(dict.fromkeys(l))`.  The first argument
accumulates the keys already seen. -/
def dedupFirstAux : List String → List String → List String
  | _, [] => []
  | seen, x :: xs =>
    if x ∈ seen then dedupFirstAux seen xs
    else x :: dedupFirstAux (x :: seen) xs

/-- Python `list(dict.fromkeys(l))`. -/
def dedupFirst (l : List String) : List String := dedupFirstAux [] l

/-! ### Exact-rational models of Python numeric primitives -/

/-- Python `round(q)`: round half to even, the Python convention. -/
def roundHalfEven (q : ℚ) : ℤ :=
  let n := ⌊q⌋
  let f := q - n
  if f < 1/2 then n
  else if f = 1/2 then (if n % 2 = 0 then n else n + 1)
  else n + 1

/-- Python `round(q, d)`: round to `d` decimal places, half to even. -/
def roundTo (d : ℕ) (q : ℚ) : ℚ := (roundHalfEven (q * 10 ^ d) : ℚ) / 10 ^ d

/-- Model of `statistics.mean` (exact rational value). -/
def listMean (xs : List ℚ) : ℚ := xs.sum / xs.length

/-- Model of `statistics.variance` (the SAMPLE variance, denominator `n - 1`),
exact rational value; only ever used on lists of length ≥ 2, matching
the guard in the source. -/
def sampleVariance (xs : List ℚ) : ℚ :=
  ((xs.map (fun x => (x - listMean xs) ^ 2)).sum) / ((xs.length : ℚ) - 1)

/-! ### Basic lemmas about the string primitives -/

theorem isPrefixL_iff_exists (n h : List Char) :
    isPrefixL n h = true ↔ ∃ t, h = n ++ t := by
  induction n generalizing h with
  | nil => simp [isPrefixL]
  | cons a as ih =>
    cases h with
    | nil => simp [isPrefixL]
    | cons b bs =>
      simp only [isPrefixL, Bool.and_eq_true, beq_iff_eq, ih, List.cons_append,
        List.cons.injEq]
      constructor
      · rintro ⟨rfl, t, rfl⟩; exact ⟨t, rfl, rfl⟩
      · rintro ⟨t, rfl, rfl⟩; exact ⟨rfl, t, rfl⟩

theorem hasSubstr_iff_exists (n h : List Char) :
    hasSubstr n h = true ↔ ∃ p t, h = p ++ n ++ t := by
  induction h with
  | nil =>
    simp only [hasSubstr, isPrefixL_iff_exists]
    constructor
    · rintro ⟨t, ht⟩
      exact ⟨[], t, by simpa using ht⟩
    · rintro ⟨p, t, ht⟩
      have := ht.symm
      rcases List.append_eq_nil.mp (List.append_eq_nil.mp this).1 with ⟨hp, hn⟩
      exact ⟨[], by simp [hn]⟩
  | cons b bs ih =>
    simp only [hasSubstr, Bool.or_eq_true, isPrefixL_iff_exists, ih]
    constructor
    · rintro (⟨t, ht⟩ | ⟨p, t, ht⟩)
      · exact ⟨[], t, by simpa using ht⟩
      · exact ⟨b :: p, t, by simp [ht]⟩
    · rintro ⟨p, t, ht⟩
      cases p with
      | nil => exact Or.inl ⟨t, by simpa using ht⟩
      | cons x xs =>
        right
        refine ⟨xs, t, ?_⟩
        have : b = x ∧ bs = xs ++ n ++ t := by
          simpa [List.cons_append, List.append_assoc] using ht
        simp [this.2, List.append_assoc]

/-- Substring containment is transitive. -/
theorem strContains_trans {big mid small : String}
    (h₁ : strContains big mid = true) (h₂ : strContains mid small = true) :
    strContains big small = true := by
  unfold strContains at *
  rw [hasSubstr_iff_exists] at *
  obtain ⟨p, t, hpt⟩ := h₁
  obtain ⟨q, u, hqu⟩ := h₂
  exact ⟨p ++ q, u ++ t, by simp [hpt, hqu, List.append_assoc]⟩

/-! ### Basic lemmas about `dedupFirst` -/

theorem mem_dedupFirstAux (x : String) :
    ∀ (l seen : List String),
      x ∈ dedupFirstAux seen l ↔ x ∈ l ∧ x ∉ seen := by
  intro l
  induction l with
  | nil => intro seen; simp [dedupFirstAux]
  | cons y ys ih =>
    intro seen
    by_cases hy : y ∈ seen
    · simp only [dedupFirstAux, if_pos hy, ih, List.mem_cons]
      constructor
      · rintro ⟨h1, h2⟩; exact ⟨Or.inr h1, h2⟩
      · rintro ⟨h1 | h1, h2⟩
        · exact absurd hy (h1 ▸ h2)
        · exact ⟨h1, h2⟩
    · simp only [dedupFirstAux, if_neg hy, List.mem_cons, ih]
      constructor
      · rintro (rfl | ⟨h1, h2⟩)
        · exact ⟨Or.inl rfl, hy⟩
        · exact ⟨Or.inr h1, fun hc => h2 (Or.inr hc)⟩
      · rintro ⟨rfl | h1, h2⟩
        · exact Or.inl rfl
        · by_cases hxy : x = y
          · exact Or.inl hxy
          · exact Or.inr ⟨h1, fun hc => hc.elim hxy h2⟩

theorem nodup_dedupFirstAux :
    ∀ (l seen : List String), (dedupFirstAux seen l).Nodup := by
  intro l
  induction l with
  | nil => intro seen; simp [dedupFirstAux]
  | cons y ys ih =>
    intro seen
    by_cases hy : y ∈ seen
    · simpa [dedupFirstAux, if_pos hy] using ih seen
    · simp only [dedupFirstAux, if_neg hy, List.nodup_cons]
      refine ⟨fun hc => ?_, ih _⟩
      have hm := (mem_dedupFirstAux y ys (y :: seen)).mp hc
      exact hm.2 (List.mem_cons_self _ _)

theorem sublist_dedupFirstAux :
    ∀ (l seen : List String), List.Sublist (dedupFirstAux seen l) l := by
  intro l
  induction l with
  | nil => intro seen; simp [dedupFirstAux]
  | cons y ys ih =>
    intro seen
    by_cases hy : y ∈ seen
    · simpa [dedupFirstAux, if_pos hy] using List.Sublist.cons y (ih seen)
    · simpa [dedupFirstAux, if_neg hy] using List.Sublist.cons₂ y (ih (y :: seen))

theorem nodup_dedupFirst (l : List String) : (dedupFirst l).Nodup :=
  nodup_dedupFirstAux l []

theorem mem_dedupFirst (x : String) (l : List String) :
    x ∈ dedupFirst l ↔ x ∈ l := by
  simpa [dedupFirst] using mem_dedupFirstAux x l []

theorem sublist_dedupFirst (l : List String) : List.Sublist (dedupFirst l) l :=
  sublist_dedupFirstAux l []

theorem dedupFirstAux_congr_seen :
    ∀ (l s1 s2 : List String), (∀ y, y ∈ s1 ↔ y ∈ s2) →
      dedupFirstAux s1 l = dedupFirstAux s2 l := by
  intro l
  induction l with
  | nil => intro s1 s2 _; rfl
  | cons x xs ih =>
    intro s1 s2 h
    by_cases hx : x ∈ s1
    · rw [dedupFirstAux, dedupFirstAux, if_pos hx, if_pos ((h x).mp hx)]
      exact ih s1 s2 h
    · rw [dedupFirstAux, dedupFirstAux, if_neg hx, if_neg (fun hc => hx ((h x).mpr hc))]
      rw [ih (x :: s1) (x :: s2) (by intro y; simp [h y])]

/-- The dedup used by the code (Python `dict.fromkeys`) equals the
insertion fold that appends each element the first time it is seen —
i.e. every duplicate collapses to the position of its first
occurrence. -/
theorem dedupFirst_eq_insert_foldl :
    ∀ (l acc : List String),
      List.foldl (fun acc x => if x ∈ acc then acc else acc ++ [x]) acc l
        = acc ++ dedupFirstAux acc l := by
  intro l
  induction l with
  | nil => intro acc; simp [dedupFirstAux]
  | cons x xs ih =>
    intro acc
    by_cases hx : x ∈ acc
    · rw [List.foldl_cons]
      simp only [if_pos hx]
      rw [ih acc, dedupFirstAux, if_pos hx]
    · rw [List.foldl_cons]
      simp only [if_neg hx]
      rw [ih (acc ++ [x]),
        dedupFirstAux_congr_seen xs (acc ++ [x]) (x :: acc)
          (by intro y; simp [or_comm]),
        dedupFirstAux, if_neg hx]
      simp

/-! ### Lemmas about the rounding and statistics models -/

theorem roundHalfEven_ge {q : ℚ} {m : ℤ} (h : (m : ℚ) ≤ q) :
    m ≤ roundHalfEven q := by
  have hm : m ≤ ⌊q⌋ := Int.le_floor.mpr h
  unfold roundHalfEven
  dsimp only
  split
  · exact hm
  · split
    · split
      · exact hm
      · omega
    · omega

theorem roundHalfEven_le {q : ℚ} {m : ℤ} (h : q ≤ (m : ℚ)) :
    roundHalfEven q ≤ m := by
  rcases eq_or_lt_of_le h with heq | hlt
  · subst heq
    unfold roundHalfEven
    dsimp only
    rw [Int.floor_intCast]
    norm_num
  · have hfl : ⌊q⌋ < m := Int.floor_lt.mpr hlt
    unfold roundHalfEven
    dsimp only
    split
    · omega
    · split
      · split <;> omega
      · omega

theorem sum_sq_nonneg (xs : List ℚ) (m : ℚ) :
    0 ≤ (xs.map (fun x => (x - m) ^ 2)).sum := by
  apply List.sum_nonneg
  intro x hx
  obtain ⟨y, _, rfl⟩ := List.mem_map.mp hx
  positivity

theorem sampleVariance_nonneg {xs : List ℚ} (h : 1 < xs.length) :
    0 ≤ sampleVariance xs := by
  unfold sampleVariance
  apply div_nonneg (sum_sq_nonneg xs _)
  have : (2 : ℚ) ≤ (xs.length : ℚ) := by exact_mod_cast h
  linarith

theorem listMean_replicate {n : ℕ} (hn : n ≠ 0) (t : ℚ) :
    listMean (List.replicate n t) = t := by
  unfold listMean
  rw [List.sum_replicate, List.length_replicate, nsmul_eq_mul]
  have : (n : ℚ) ≠ 0 := Nat.cast_ne_zero.mpr hn
  field_simp

theorem sampleVariance_replicate (n : ℕ) (hn : n ≠ 0) (t : ℚ) :
    sampleVariance (List.replicate n t) = 0 := by
  unfold sampleVariance
  rw [listMean_replicate hn, List.map_replicate]
  simp

/-! ### Consensus engine (`weather_intelligence_agent.py`) -/

/-- The `DataSource` enum; the iteration order of `self.data_sources`
(a Python `dict`, iterated in insertion order) is `sourceOrder`. -/
inductive DataSource where
  | nws
  | wttr
  | mcp
deriving DecidableEq, Repr

/-- The `DataSource.value` strings. -/
def DataSource.value : DataSource → String
  | .nws => "nws"
  | .wttr => "wttr"
  | .mcp => "mcp"

/-- Insertion order of the `self.data_sources` dict in
`WeatherIntelligenceAgent.__init__`. -/
def sourceOrder : List DataSource := [.nws, .wttr, .mcp]

/-- The `self.source_reliability` table (fixed constants from `__init__`). -/
def source_reliability : DataSource → ℚ
  | .nws => 9/10
  | .wttr => 8/10
  | .mcp => 85/100

/-- One successful source observation: the dict produced by a fetcher
(`temperature`, `humidity`, `conditions`, `source` keys, all of which
every fetcher populates). -/
structure SourceData where
  temperature : ℚ
  humidity : ℚ
  conditions : String
  source : String
deriving DecidableEq, Repr

/-- The `WeatherConsensus` dataclass. -/
structure WeatherConsensus where
  temperature : ℚ
  humidity : ℚ
  conditions : String
  confidence_score : ℚ
  source_count : ℕ
  data_sources : List String
deriving DecidableEq, Repr

/-- The computation `weight = int(reliability * 10)` from `_create_consensus`.  Python
`int` truncates toward zero; the reliabilities are positive so this is
the floor.  (For the three fixed constants the IEEE-754 evaluation of
`reliability * 10` yields 9.0000000000000002, 8.0 and 8.5, whose
truncations agree with the exact rational floors 9, 8 and 8.) -/
def sourceWeight (s : DataSource) : ℕ := (⌊source_reliability s * 10⌋).toNat

/-- The reliability-replicated temperature population built by the
`for source, data in source_results.items()` loop:
`temperatures.extend([temp] * weight)`. -/
def replicatedTemps (sr : List (DataSource × SourceData)) : List ℚ :=
  (sr.map (fun p => List.replicate (sourceWeight p.1) p.2.temperature)).flatten

/-- The reliability-replicated humidity population
(`humidities.extend([humidity] * weight)`). -/
def replicatedHums (sr : List (DataSource × SourceData)) : List ℚ :=
  (sr.map (fun p => List.replicate (sourceWeight p.1) p.2.humidity)).flatten

/-- The raw (unreplicated) per-source condition strings
(`conditions.append(data.get("conditions", "Unknown"))`). -/
def conditionsList (sr : List (DataSource × SourceData)) : List String :=
  sr.map (fun p => p.2.conditions)

/-- The per-source `source` labels
(`sources.append(data.get("source", source.value))`). -/
def sourcesList (sr : List (DataSource × SourceData)) : List String :=
  sr.map (fun p => p.2.source)

/-- The guarded `temp_variance = statistics.variance(temperatures) if
len(temperatures) > 1 else 0`. -/
def tempVariance (sr : List (DataSource × SourceData)) : ℚ :=
  if 1 < (replicatedTemps sr).length then sampleVariance (replicatedTemps sr) else 0

/-- Python `max(iterable, key=k)`: fold that replaces the current best
only on a STRICTLY larger key, so among tied elements the one occurring
first in iteration order wins.  Returns `dflt` on an empty iterable
(the source guards with `if conditions else "Unknown"`). -/
def pyMaxStep (key : String → ℕ) (acc y : String) : String :=
  if key acc < key y then y else acc

def pyMaxByD (key : String → ℕ) (dflt : String) : List String → String
  | [] => dflt
  | x :: xs => xs.foldl (pyMaxStep key) x

/-- Predicate stating that `order` is a possible iteration order of the CPython set
`set(vals)`: the distinct values of `vals` in SOME order.  CPython set
iteration order depends on string hashes (randomized per process), so
the embedding takes it as an explicit parameter constrained by this
predicate. -/
def validSetOrder (order vals : List String) : Prop :=
  order.Nodup ∧ (∀ x ∈ order, x ∈ vals) ∧ (∀ x ∈ vals, x ∈ order)

instance (order vals : List String) : Decidable (validSetOrder order vals) := by
  unfold validSetOrder; infer_instance

/-- Embedding of `WeatherIntelligenceAgent._create_consensus`.  `condOrder` is the
iteration order of `set(conditions)` (see `validSetOrder`); `sr` is the
`source_results` dict as an association list in its insertion
(= source-iteration) order. -/
def _create_consensus (condOrder : List String)
    (sr : List (DataSource × SourceData)) : WeatherConsensus :=
  let temperatures := replicatedTemps sr
  let humidities := replicatedHums sr
  let conditions := conditionsList sr
  let consensus_temp := if temperatures = [] then 70 else listMean temperatures
  let consensus_humidity := if humidities = [] then 50 else listMean humidities
  let consensus_conditions :=
    if conditions = [] then ("Unknown")
    else pyMaxByD (fun c => conditions.count c) "Unknown" condOrder
  let confidence : ℚ := max (1/2) (1 - tempVariance sr / 100)
  { temperature := roundTo 1 consensus_temp
    humidity := roundTo 1 consensus_humidity
    conditions := consensus_conditions
    confidence_score := roundTo 2 confidence
    source_count := sr.length
    data_sources := sourcesList sr }

/-- The successful subset of the per-source fetch outcomes, in source
iteration order: the `source_results` dict built by
`get_consensus_weather` (a fetch that raises or returns no data is
`none`). -/
def successList (results : DataSource → Option SourceData) :
    List (DataSource × SourceData) :=
  sourceOrder.filterMap (fun s => (results s).map (fun d => (s, d)))

/-- Return value of `get_consensus_weather`: either the structured
failure dict `{"success": False, "error": ...}` or the success dict
(`location`, `consensus`, `sources_used`, `reliability_score`; the
free-text `intelligence_report` and `timestamp` fields are omitted —
no claim mentions them). -/
inductive ConsensusCall where
  | failure (error : String)
  | success (location : String) (consensus : WeatherConsensus)
      (sources_used : ℕ) (reliability_score : ℚ)
deriving DecidableEq, Repr

/-- Embedding of `WeatherIntelligenceAgent.get_consensus_weather`, with the three
network fetchers abstracted into `results` and the set-iteration order
for the conditions mode passed as `condOrder`. -/
def get_consensus_weather (condOrder : List String) (location : String)
    (results : DataSource → Option SourceData) : ConsensusCall :=
  let source_results := successList results
  if source_results = [] then
    .failure ("No weather data sources available")
  else
    let consensus := _create_consensus condOrder source_results
    .success location consensus source_results.length consensus.confidence_score

/-! ### Task classifier and location resolver (`simple_orchestrator.py`) -/

/-- The `TaskType` enum. -/
inductive TaskType where
  | weather_query
  | forecast_analysis
  | alert_monitoring
  | multi_location
  | general_inquiry
deriving DecidableEq, Repr

/-- The `TaskType.value` strings. -/
def TaskType.value : TaskType → String
  | .weather_query => "weather_query"
  | .forecast_analysis => "forecast_analysis"
  | .alert_monitoring => "alert_monitoring"
  | .multi_location => "multi_location"
  | .general_inquiry => "general_inquiry"

def forecastKeywords : List String := ["forecast", "prediction", "future", "tomorrow", "week"]

def alertKeywords : List String := ["alert", "warning", "storm", "emergency"]

def multiKeywords : List String := ["multiple", "compare", "cities", "locations"]

def weatherKeywords : List String := ["weather", "temperature", "current", "now"]

/-- Model of `any(word in query_lower for word in kws)`. -/
def hasAnyKeyword (queryLower : String) (kws : List String) : Bool :=
  kws.any (fun w => strContains queryLower w)

/-- Embedding of `SimpleOrchestrator._classify_task`. -/
def _classify_task (query : String) : TaskType :=
  let query_lower := lowerStr query
  if hasAnyKeyword query_lower forecastKeywords then .forecast_analysis
  else if hasAnyKeyword query_lower alertKeywords then .alert_monitoring
  else if hasAnyKeyword query_lower multiKeywords then .multi_location
  else if hasAnyKeyword query_lower weatherKeywords then .weather_query
  else .general_inquiry

/-- Modelled from the spec (§4.1), for the refinement comparison with
`_classify_task`: "test an ordered list of keyword-set predicates and
return the category of the first predicate that matches; if none match,
return GeneralInquiry". -/
def classifyOrderedSpec (query : String) : TaskType :=
  let query_lower := lowerStr query
  let table : List (List String × TaskType) :=
    [(forecastKeywords, .forecast_analysis),
     (alertKeywords, .alert_monitoring),
     (multiKeywords, .multi_location),
     (weatherKeywords, .weather_query)]
  match table.find? (fun p => hasAnyKeyword query_lower p.1) with
  | some p => p.2
  | none => .general_inquiry

def common_cities : List String :=
  ["london", "paris", "new york", "tokyo", "sydney", "berlin",
   "rome", "madrid", "amsterdam", "barcelona", "vienna", "prague",
   "moscow", "beijing", "mumbai", "delhi", "bangkok", "singapore",
   "los angeles", "chicago", "houston", "phoenix", "philadelphia",
   "san francisco", "seattle", "boston", "atlanta", "miami"]

def us_states : List String :=
  ["california", "texas", "florida", "new york", "pennsylvania",
   "illinois", "ohio", "georgia", "north carolina", "michigan"]

/-- The `found_locations` list built by `_extract_locations` before
de-duplication: matched cities (in gazetteer order), then matched
US states (in gazetteer order), each `.title()`-cased. -/
def matchedLocations (query : String) : List String :=
  let query_lower := lowerStr query
  (common_cities.filter (fun c => strContains query_lower c)).map toTitle
    ++ (us_states.filter (fun s => strContains query_lower s)).map toTitle

/-- Embedding of `SimpleOrchestrator._extract_locations`. -/
def _extract_locations (query : String) : List String :=
  dedupFirst (matchedLocations query)

/-- Embedding of `SimpleOrchestrator._get_state_code` (`state_mapping` dict). -/
def _get_state_code (location : String) : Option String :=
  List.lookup (lowerStr location)
    [("california", "CA"), ("texas", "TX"), ("florida", "FL"),
     ("new york", "NY"), ("pennsylvania", "PA"), ("illinois", "IL"),
     ("ohio", "OH"), ("georgia", "GA"), ("north carolina", "NC"),
     ("michigan", "MI")]

/-- Embedding of `SimpleOrchestrator._get_coordinates` (`coord_mapping` dict). -/
def _get_coordinates (location : String) : Option (ℚ × ℚ) :=
  List.lookup (lowerStr location)
    [("london", (515074/10000, -1278/10000)),
     ("paris", (488566/10000, 23522/10000)),
     ("new york", (407128/10000, -740060/10000)),
     ("tokyo", (356762/10000, 1396503/10000)),
     ("sydney", (-338688/10000, 1512093/10000)),
     ("berlin", (525200/10000, 134050/10000)),
     ("los angeles", (340522/10000, -1182437/10000)),
     ("chicago", (418781/10000, -876298/10000))]

/-! ### Orchestration pipeline (`process_query` and `_format_response`)

The three weather-server tools are network collaborators; the embedding
passes them as oracle parameters.  `_call_weather_tool` returns either
the parsed JSON weather dict (`get_weather` in weather.py returns a
dict with `city`, `temperature`, `description` fields on success,
modelled in their rendered string form) or a dict carrying an `error`
key.  `_call_forecast_tool` / `_call_alerts_tool` return
`response.json()` on success; the weather-server tools `get_forecast`
and `get_alerts` are declared `-> str` (weather.py lines 276 and 217)
and their HTTP endpoints pass that string through, so the parsed
success value is a plain Python STRING — the `isinstance(x, str)` arms
of `_format_response` are the live success paths.  Every other outcome
is a dict with an `error` key: the error dicts the callers build
themselves (non-200 status, empty body, JSON parse failure, exception),
the endpoint-level error dicts, and the coordinates-missing dict built
inside `process_query`. -/

inductive WeatherToolResult where
  | err (msg : String)
  | ok (city : String) (temperature : String) (description : String)
deriving DecidableEq, Repr

/-- Python `s.startswith(p)`. -/
def pyStartsWith (s p : String) : Bool := isPrefixL p.data s.data

/-- Value stored under the `"forecast"` / `"alerts"` keys of
`gathered_data`: what `_call_forecast_tool` / `_call_alerts_tool`
return.  `str s` is a plain string (the success value parsed back from
the weather-server tools, which return strings); `dict r` is any dict
outcome, carried as its Python `str(...)` rendering `r`, since
`_format_response` only inspects dicts through `isinstance(x, str)`
(false) and `"error" in str(x)` (a substring test on the rendering). -/
inductive ToolValue where
  | str (s : String)
  | dict (rendered : String)
deriving DecidableEq, Repr

/-- The Python `isinstance(x, str)` test on a tool value. -/
def ToolValue.isStr : ToolValue → Bool
  | .str _ => true
  | .dict _ => false

/-- Python `str(x)` of a tool value: a string renders as itself, a dict
as its recorded rendering. -/
def ToolValue.pyStr : ToolValue → String
  | .str s => s
  | .dict r => r

/-- The Python `str(...)` rendering of a single-key error dict
`\x7b"error": msg\x7d` as built in `_call_forecast_tool`,
`_call_alerts_tool` and the coordinates-missing arm of
`process_query`. -/
def errorDictStr (msg : String) : String :=
  "\x7b\x27error\x27: \x27" ++ msg ++ "\x27\x7d"

/-- The `gathered_data` dict of `process_query`: the per-location
weather results (keys are `location.lower()`), and the optional
`"forecast"` / `"alerts"` entries. -/
structure GatheredData where
  weather : List (String × WeatherToolResult)
  forecast : Option ToolValue
  alerts : Option ToolValue
deriving DecidableEq, Repr

def emptyGathered : GatheredData := ⟨[], none, none⟩

/-- The error line rendered for one failed location in the
MULTI_LOCATION branch of `_format_response`. -/
def multiErrorLine (location err : String) : String :=
  "❌ " ++ location ++ ": Error - " ++ err

/-- The normal line rendered for one successful location in the
MULTI_LOCATION branch of `_format_response`. -/
def multiOkLine (city temperature description : String) : String :=
  "🌤️ " ++ city ++ ": " ++ temperature ++ "°C, " ++ description

/-- Placeholder for `json.dumps(data, indent=2)` in the fallback line of
`_format_response`; the exact JSON rendering is abstracted (no claim
depends on this string). -/
def rawDataDump (data : GatheredData) : String :=
  joinWith (", ") (data.weather.map (fun p => p.1))

/-- The fallback response of `_format_response`. -/
def fallbackResponse (data : GatheredData) : String :=
  "🤖 I processed your query but couldn\x27t format a proper response. Raw data: "
    ++ rawDataDump data

/-- Embedding of `SimpleOrchestrator._format_response`.  In the
FORECAST_ANALYSIS and ALERT_MONITORING branches the `isinstance(x,
str)` arms are the live success paths (the tools return plain
strings); the `"error" in str(x)` arm catches every dict outcome (all
reachable dicts carry an `error` key, and the test is performed on the
`str(...)` rendering as in the source). -/
def _format_response (task_type : TaskType) (data : GatheredData)
    (locations : List String) : String :=
  match task_type with
  | .weather_query =>
    match locations with
    | [loc] =>
      match data.weather.lookup (lowerStr loc) with
      | some (.err e) => "❌ Error getting weather for " ++ loc ++ ": " ++ e
      | some (.ok c t d) =>
        "🌤️ Current weather in " ++ c ++ ":\n   🌡️ Temperature: " ++ t
          ++ "°C\n   📝 Conditions: " ++ d
      | none => fallbackResponse data
    | _ => fallbackResponse data
  | .multi_location =>
    let responses := locations.filterMap (fun location =>
      match data.weather.lookup (lowerStr location) with
      | none => none
      | some (.ok c t d) => some (multiOkLine c t d)
      | some (.err e) => some (multiErrorLine location e))
    if responses = [] then fallbackResponse data
    else ("🗺️ Weather comparison:\n")
      ++ joinWith ("\n") (responses.map (fun r => "   " ++ r))
  | .forecast_analysis =>
    match data.forecast, locations with
    | some forecast_data, loc :: _ =>
      if forecast_data.isStr && !(pyStartsWith forecast_data.pyStr ("Error")) then
        ("📅 Forecast for ") ++ loc ++ ":\n" ++ forecast_data.pyStr
      else if strContains forecast_data.pyStr ("error") then
        ("❌ Error getting forecast: ") ++ forecast_data.pyStr
      else fallbackResponse data
    | _, _ => fallbackResponse data
  | .alert_monitoring =>
    match data.alerts, locations with
    | some alert_data, loc :: _ =>
      if alert_data.isStr && strContains alert_data.pyStr ("No active alerts") then
        ("✅ No active weather alerts for ") ++ loc
      else if alert_data.isStr && !(pyStartsWith alert_data.pyStr ("Error")) then
        ("🚨 Weather alerts for ") ++ loc ++ ":\n" ++ alert_data.pyStr
      else if strContains alert_data.pyStr ("error") then
        ("❌ Error getting alerts: ") ++ alert_data.pyStr
      else fallbackResponse data
    | _, _ => fallbackResponse data
  | .general_inquiry => fallbackResponse data

/-- The ALERT_MONITORING gathering loop of `process_query` (lines
292-300): iterate the locations, call the alerts tool for the first
location with a state code, then `break`.  Returns the stored
`gathered_data["alerts"]` value and the list of state codes for which
`_call_alerts_tool` was actually invoked (the instrumentation used to
state claim C6). -/
def gatherAlertsLoop (alertsTool : String → ToolValue) :
    List String → Option ToolValue × List String
  | [] => (none, [])
  | loc :: rest =>
    match _get_state_code loc with
    | some code => (some (alertsTool code), [code])
    | none => gatherAlertsLoop alertsTool rest

/-- Step 3 of `process_query`: gather data based on task type.  Returns
the `gathered_data` dict and the list of alerts-tool invocations. -/
def gatherData (weatherTool : String → WeatherToolResult)
    (forecastTool : ℚ × ℚ → ToolValue) (alertsTool : String → ToolValue)
    (task_type : TaskType) (locations : List String) :
    GatheredData × List String :=
  match task_type with
  | .weather_query =>
    (⟨locations.map (fun l => (lowerStr l, weatherTool l)), none, none⟩, [])
  | .multi_location =>
    (⟨locations.map (fun l => (lowerStr l, weatherTool l)), none, none⟩, [])
  | .forecast_analysis =>
    match locations with
    | [] => (emptyGathered, [])
    | l :: _ =>
      match _get_coordinates l with
      | some coords => (⟨[], some (forecastTool coords), none⟩, [])
      | none =>
        (⟨[], some (.dict (errorDictStr ("Coordinates not available for this location"))),
          none⟩, [])
  | .alert_monitoring =>
    match locations with
    | [] => (emptyGathered, [])
    | _ :: _ =>
      let r := gatherAlertsLoop alertsTool locations
      (⟨[], none, r.1⟩, r.2)
  | .general_inquiry => (emptyGathered, [])

/-- The dict returned by `process_query` (the `execution_log`,
`execution_time`, `raw_data` and `metadata` fields are omitted — no
claim mentions them; `alertCalls` is the instrumented list of
alerts-tool invocations).  The embedded tools are total, so the
`except` path of the source is unreachable and `success` is `true`. -/
structure ProcessResult where
  success : Bool
  response : String
  task_type : TaskType
  locations : List String
  alertCalls : List String
deriving DecidableEq, Repr

/-- Embedding of `SimpleOrchestrator.process_query`. -/
def process_query (weatherTool : String → WeatherToolResult)
    (forecastTool : ℚ × ℚ → ToolValue) (alertsTool : String → ToolValue)
    (user_query : String) : ProcessResult :=
  let task_type := _classify_task user_query
  let locations := _extract_locations user_query
  let gd := gatherData weatherTool forecastTool alertsTool task_type locations
  { success := true
    response := _format_response task_type gd.1 locations
    task_type := task_type
    locations := locations
    alertCalls := gd.2 }

/-! ### Smart alert agent (`smart_alert_agent.py`)

`AlertAgent` delegates every weather lookup to its
`SimpleOrchestrator`; the embedding passes that collaborator as an
oracle `orch` mapping the query string to the orchestrator result (only
the `success` and `response` fields are read).  Subscription `alert_id`
keys and timestamps are process-clock artifacts that no claim mentions;
the subscription store is the list of subscription configs in insertion
order. -/

structure OrchResult where
  success : Bool
  response : String
deriving DecidableEq, Repr

/-- One stored subscription config (the fields read by
`check_alerts_for_all_subscriptions` / `_analyze_for_alerts`; the
`alert_types`, `thresholds` and `notification_preferences` entries are
stored but never influence the checking logic). -/
structure Subscription where
  locations : List String
  active : Bool
deriving DecidableEq, Repr

/-- A triggered alert (the `alert_id`, `timestamp` and
`subscription_id` fields are clock/key artifacts, omitted). -/
structure TriggeredAlert where
  location : String
  severity : String
  conditions : List String
  weather_summary : String
deriving DecidableEq, Repr

/-- Embedding of `AlertAgent.setup_smart_alerts`: store a new always-active
subscription for the given locations. -/
def setup_smart_alerts (subscriptions : List Subscription)
    (locations : List String) : List Subscription :=
  subscriptions ++ [⟨locations, true⟩]

def severeWeatherTerms : List String := ["storm", "hurricane", "tornado", "severe", "warning"]

def travelTerms : List String := ["flight", "delay", "cancel", "closure"]

/-- The weather query string built inside
`check_alerts_for_all_subscriptions`. -/
def weatherQueryFor (location : String) : String :=
  "Current weather conditions and any alerts for " ++ location

/-- Embedding of `AlertAgent._analyze_for_alerts` (given the orchestrator response
text for one location).  Note the sequential severity assignments of
the source: HIGH from a severe-weather hit is OVERWRITTEN by MEDIUM
when an extreme-temperature or travel-disruption hit follows. -/
def _analyze_for_alerts (location : String) (responseText : String) :
    Option TriggeredAlert :=
  let response_text := lowerStr responseText
  let severeHit := severeWeatherTerms.any (fun t => strContains response_text t)
  let extremeHit := strContains response_text ("extreme")
    || strContains response_text ("record")
  let travelHit := travelTerms.any (fun t => strContains response_text t)
  let alert_conditions :=
    (if severeHit then ["Severe weather detected"] else [])
      ++ (if extremeHit then ["Extreme temperature conditions"] else [])
      ++ (if travelHit then ["Potential travel disruptions"] else [])
  let severity :=
    if travelHit then ("medium")
    else if extremeHit then ("medium")
    else if severeHit then ("high")
    else ("low")
  if alert_conditions = [] then none
  else some ⟨location, severity, alert_conditions, responseText⟩

/-- Embedding of `AlertAgent.check_alerts_for_all_subscriptions`. -/
def check_alerts_for_all_subscriptions (orch : String → OrchResult)
    (subscriptions : List Subscription) : List TriggeredAlert :=
  (subscriptions.map (fun config =>
    if config.active then
      config.locations.filterMap (fun location =>
        let weather_result := orch (weatherQueryFor location)
        if weather_result.success then
          _analyze_for_alerts location weather_result.response
        else none)
    else [])).flatten

/-! ### Concrete fixtures used by witnesses and counterexamples -/

/-- Fetch outcomes with two successful sources whose exact confidence
value is not representable in two decimal places
(NWS 72°, WTTR 74°, MCP failed). -/
def c1CexResults : DataSource → Option SourceData
  | .nws => some ⟨72, 50, "Clear", "NWS"⟩
  | .wttr => some ⟨74, 60, "Clear", "WTTR"⟩
  | .mcp => none

/-- Fetch outcomes for the floor scenario of the spec: observations 60°
("Rain") and 90° ("Clear"). -/
def c1FloorResults : DataSource → Option SourceData
  | .nws => some ⟨60, 50, "Rain", "NWS"⟩
  | .wttr => some ⟨90, 40, "Clear", "WTTR"⟩
  | .mcp => none

/-- Fetch outcomes with a single successful source. -/
def c10Results : DataSource → Option SourceData
  | .nws => none
  | .wttr => some ⟨68, 71, "Fog", "WTTR"⟩
  | .mcp => none

/-- Source results whose two condition strings are tied for most
frequent ("Rain" first in source order, then "Clear"). -/
def c8Observations : List (DataSource × SourceData) :=
  [(.nws, ⟨60, 50, "Rain", "NWS"⟩), (.wttr, ⟨90, 40, "Clear", "WTTR"⟩)]

/-- The claimed tie-break of the spec: scan the raw condition list in
source-iteration order and keep the first value attaining the maximal
count. -/
def firstOccurrenceMode (conds : List String) : String :=
  pyMaxByD (fun c => conds.count c) "Unknown" (dedupFirst conds)

/-- The position of the first occurrence of (the lowercase form of)
`x` in the query text, used to state the first-seen order in the query
text claimed in C5. -/
def occIdx (query x : String) : ℕ :=
  (firstIdx (lowerStr x).data (lowerStr query).data).getD 0

/-- The order property claimed in C5: the output is listed in the order of
first occurrence in the query text. -/
def inTextOrder (query : String) (out : List String) : Prop :=
  out.Pairwise (fun a b => occIdx query a ≤ occIdx query b)

instance (query : String) (out : List String) :
    Decidable (inTextOrder query out) := by
  unfold inTextOrder; infer_instance

/-- Weather tool oracle for the C7 witness: London errors, Paris
succeeds. -/
def c7WeatherTool : String → WeatherToolResult
  | "London" => .err ("Weather server returned status 500: boom")
  | _ => .ok ("Paris") "18" "Partly cloudy"

/-- Forecast/alerts tool oracles used by witnesses (plain-string
success values, as the real tools return; the exact text is irrelevant
to the claims they serve). -/
def constAlertsTool : String → ToolValue :=
  fun _ => .str ("No active weather alerts for CA.")

def constForecastTool : ℚ × ℚ → ToolValue :=
  fun _ => .str ("Tonight: Clear, with a low around 52.")

/-- Orchestrator oracle for the C9 counterexample: a successful
response whose text contains "severe storm warning" AND "record". -/
def c9BadOrch : String → OrchResult :=
  fun _ => ⟨true, "Severe storm warning with record heat expected"⟩

/-- Orchestrator oracle for the C9 witness: a successful response whose
text contains "severe storm warning" and none of the downgrade terms. -/
def c9GoodOrch : String → OrchResult :=
  fun _ => ⟨true, "Severe storm warning issued this evening"⟩

/-! ### Supporting lemmas for the claim theorems -/

theorem tempVariance_nonneg (sr : List (DataSource × SourceData)) :
    0 ≤ tempVariance sr := by
  unfold tempVariance
  split
  · exact sampleVariance_nonneg (by assumption)
  · exact le_refl 0

theorem roundTo_two_bounds {q : ℚ} (h1 : 1/2 ≤ q) (h2 : q ≤ 1) :
    1/2 ≤ roundTo 2 q ∧ roundTo 2 q ≤ 1 := by
  have h100 : ((10:ℚ)) ^ 2 = 100 := by norm_num
  unfold roundTo
  rw [h100]
  have hge : (50 : ℤ) ≤ roundHalfEven (q * 100) := by
    apply roundHalfEven_ge
    push_cast
    linarith
  have hle : roundHalfEven (q * 100) ≤ (100 : ℤ) := by
    apply roundHalfEven_le
    push_cast
    linarith
  have hge2 : (50 : ℚ) ≤ (roundHalfEven (q * 100) : ℚ) := by exact_mod_cast hge
  have hle2 : (roundHalfEven (q * 100) : ℚ) ≤ 100 := by exact_mod_cast hle
  constructor
  · rw [le_div_iff₀ (by norm_num : (0:ℚ) < 100)]
    linarith
  · rw [div_le_one (by norm_num : (0:ℚ) < 100)]
    linarith

/-- Evaluation of `roundHalfEven` at an integer value. -/
theorem roundHalfEven_intCast {q : ℚ} {n : ℤ} (h : q = (n : ℚ)) :
    roundHalfEven q = n := by
  subst h
  unfold roundHalfEven
  dsimp only
  rw [Int.floor_intCast]
  norm_num

/-- Evaluation of `roundHalfEven` when the fractional part exceeds one half. -/
theorem roundHalfEven_of_frac_gt {q : ℚ} {n : ℤ}
    (hfl : ⌊q⌋ = n) (hf : 1/2 < q - n) : roundHalfEven q = n + 1 := by
  unfold roundHalfEven
  dsimp only
  rw [hfl, if_neg (by linarith), if_neg (by linarith)]

theorem sourceWeight_nws : sourceWeight .nws = 9 := by
  simp only [sourceWeight, source_reliability]
  norm_num
  rfl

theorem sourceWeight_wttr : sourceWeight .wttr = 8 := by
  simp only [sourceWeight, source_reliability]
  norm_num
  rfl

theorem sourceWeight_mcp : sourceWeight .mcp = 8 := by
  simp only [sourceWeight, source_reliability]
  rw [show ((85:ℚ)/100 * 10) = 17/2 by norm_num,
    show ⌊(17/2 : ℚ)⌋ = 8 from by norm_num [Int.floor_eq_iff]]
  rfl

theorem sourceWeight_pos (s : DataSource) : 0 < sourceWeight s := by
  cases s
  · rw [sourceWeight_nws]; norm_num
  · rw [sourceWeight_wttr]; norm_num
  · rw [sourceWeight_mcp]; norm_num

theorem replicatedTemps_ne_nil {sr : List (DataSource × SourceData)}
    (h : sr ≠ []) : replicatedTemps sr ≠ [] := by
  cases sr with
  | nil => exact absurd rfl h
  | cons p rest =>
    intro hrep
    have hlen := congrArg List.length hrep
    simp only [replicatedTemps, List.map_cons, List.flatten_cons, List.length_append,
      List.length_replicate, List.length_nil] at hlen
    have hw := sourceWeight_pos p.1
    omega

theorem replicatedHums_ne_nil {sr : List (DataSource × SourceData)}
    (h : sr ≠ []) : replicatedHums sr ≠ [] := by
  cases sr with
  | nil => exact absurd rfl h
  | cons p rest =>
    intro hrep
    have hlen := congrArg List.length hrep
    simp only [replicatedHums, List.map_cons, List.flatten_cons, List.length_append,
      List.length_replicate, List.length_nil] at hlen
    have hw := sourceWeight_pos p.1
    omega

/-- Specification of the fold inside `pyMaxByD` (Python `max` with a
key): the result is the accumulator or a list element, its key is at
least the key of the accumulator, and at least the key of every element. -/
theorem pyMax_foldl_spec (key : String → ℕ) :
    ∀ (xs : List String) (b : String),
      (List.foldl (pyMaxStep key) b xs = b ∨ List.foldl (pyMaxStep key) b xs ∈ xs)
      ∧ key b ≤ key (List.foldl (pyMaxStep key) b xs)
      ∧ ∀ z ∈ xs, key z ≤ key (List.foldl (pyMaxStep key) b xs) := by
  intro xs
  induction xs with
  | nil =>
    intro b
    refine ⟨Or.inl rfl, le_refl _, ?_⟩
    intro z hz
    exact absurd hz (List.not_mem_nil z)
  | cons y ys ih =>
    intro b
    obtain ⟨hmem, hacc, hall⟩ := ih (pyMaxStep key b y)
    have hfold : List.foldl (pyMaxStep key) b (y :: ys)
        = List.foldl (pyMaxStep key) (pyMaxStep key b y) ys := rfl
    have hbacc : key b ≤ key (pyMaxStep key b y) := by
      unfold pyMaxStep
      split
      · next h => exact le_of_lt h
      · exact le_refl _
    have hyacc : key y ≤ key (pyMaxStep key b y) := by
      unfold pyMaxStep
      split
      · exact le_refl _
      · next h => exact le_of_not_lt h
    refine ⟨?_, ?_, ?_⟩
    · rw [hfold]
      rcases hmem with heq | hm
      · rw [heq]
        unfold pyMaxStep
        split
        · exact Or.inr (List.mem_cons_self y ys)
        · exact Or.inl rfl
      · exact Or.inr (List.mem_cons_of_mem y hm)
    · rw [hfold]
      exact le_trans hbacc hacc
    · intro z hz
      rw [hfold]
      rcases List.mem_cons.mp hz with rfl | hzys
      · exact le_trans hyacc hacc
      · exact hall z hzys

/-- Sanity checks of the live `isinstance(x, str)` success arms of
`_format_response`: a plain-string alerts value containing
"No active alerts" renders the no-active-alerts line; any other
non-Error-prefixed string (including the actual weather-server text
"No active weather alerts for …", which does NOT contain the
substring "No active alerts") renders the alert-text block; a
plain-string forecast value renders the forecast block; dict outcomes
render the error lines through their `str(...)` text. -/
theorem format_response_live_string_arms :
    _format_response .alert_monitoring
        ⟨[], none, some (.str ("No active alerts found."))⟩ ["California"]
      = "✅ No active weather alerts for California"
    ∧ _format_response .alert_monitoring
        ⟨[], none, some (.str ("No active weather alerts for CA."))⟩ ["California"]
      = "🚨 Weather alerts for California:\nNo active weather alerts for CA."
    ∧ _format_response .forecast_analysis
        ⟨[], some (.str ("Tonight: Clear, with a low around 52.")), none⟩ ["Tokyo"]
      = "📅 Forecast for Tokyo:\nTonight: Clear, with a low around 52."
    ∧ _format_response .forecast_analysis
        ⟨[], some (.dict (errorDictStr ("Coordinates not available for this location"))),
          none⟩ ["Sydney"]
      = "❌ Error getting forecast: "
          ++ errorDictStr ("Coordinates not available for this location") :=
  ⟨by decide, by decide, by decide, by decide⟩

theorem gatherAlertsLoop_calls (alertsTool : String → ToolValue) :
    ∀ locs : List String,
      (gatherAlertsLoop alertsTool locs).2
        = (locs.findSome? _get_state_code).toList := by
  intro locs
  induction locs with
  | nil => rfl
  | cons loc rest ih =>
    unfold gatherAlertsLoop
    rw [List.findSome?_cons]
    cases h : _get_state_code loc
    · simpa [h] using ih
    · simp [h]

/-- Title-casing a gazetteer entry and lowering it again recovers the
entry (all gazetteer entries are lowercase ASCII). -/
theorem lower_toTitle_gazetteer :
    ∀ g ∈ common_cities ++ us_states, lowerStr (toTitle g) = g := by decide

theorem mem_matched_exists_gaz {q x : String} (hx : x ∈ matchedLocations q) :
    ∃ g ∈ common_cities ++ us_states, x = toTitle g := by
  unfold matchedLocations at hx
  rcases List.mem_append.mp hx with hx2 | hx2
  · obtain ⟨g, hg, rfl⟩ := List.mem_map.mp hx2
    exact ⟨g, List.mem_append.mpr (Or.inl (List.mem_filter.mp hg).1), rfl⟩
  · obtain ⟨g, hg, rfl⟩ := List.mem_map.mp hx2
    exact ⟨g, List.mem_append.mpr (Or.inr (List.mem_filter.mp hg).1), rfl⟩

theorem extract_title_roundtrip {q x : String}
    (hx : x ∈ _extract_locations q) : toTitle (lowerStr x) = x := by
  have hx2 : x ∈ matchedLocations q := (mem_dedupFirst x _).mp hx
  obtain ⟨g, hg, rfl⟩ := mem_matched_exists_gaz hx2
  rw [lower_toTitle_gazetteer g hg]

theorem extract_lower_injOn {q x y : String}
    (hx : x ∈ _extract_locations q) (hy : y ∈ _extract_locations q)
    (hxy : lowerStr x = lowerStr y) : x = y := by
  rw [← extract_title_roundtrip hx, ← extract_title_roundtrip hy, hxy]

theorem extract_pair_lower_ne {q l₁ l₂ : String}
    (hl : _extract_locations q = [l₁, l₂]) : lowerStr l₁ ≠ lowerStr l₂ := by
  have hnd := nodup_dedupFirst (matchedLocations q)
  rw [show dedupFirst (matchedLocations q) = _extract_locations q from rfl, hl] at hnd
  have hne : l₁ ≠ l₂ := by
    intro heq
    rw [heq] at hnd
    simp [List.nodup_cons] at hnd
  intro heq
  apply hne
  exact extract_lower_injOn
    (by rw [hl]; exact List.mem_cons_self _ _)
    (by rw [hl]; simp) heq

/-! ### Claim theorems -/

/-- C2: the task classifier is a pure total function of the lowercased
query that tests an ordered list of keyword-set predicates (forecast,
then alert, then multi-location, then plain-weather) and returns the
category of the first match, returning GeneralInquiry when no keyword
matches; consequently every query containing both a forecast keyword
and a compare (multi-location) keyword classifies as ForecastAnalysis. -/
theorem c2_classifier_ordered_first_match (q : String) :
    _classify_task q = classifyOrderedSpec q
    ∧ (hasAnyKeyword (lowerStr q) forecastKeywords = true →
        hasAnyKeyword (lowerStr q) multiKeywords = true →
        _classify_task q = .forecast_analysis)
    ∧ (hasAnyKeyword (lowerStr q) forecastKeywords = false →
        hasAnyKeyword (lowerStr q) alertKeywords = false →
        hasAnyKeyword (lowerStr q) multiKeywords = false →
        hasAnyKeyword (lowerStr q) weatherKeywords = false →
        _classify_task q = .general_inquiry) := by
  refine ⟨?_, ?_, ?_⟩
  · unfold _classify_task classifyOrderedSpec
    cases hf : hasAnyKeyword (lowerStr q) forecastKeywords <;>
      cases ha : hasAnyKeyword (lowerStr q) alertKeywords <;>
        cases hm : hasAnyKeyword (lowerStr q) multiKeywords <;>
          cases hw : hasAnyKeyword (lowerStr q) weatherKeywords <;>
            simp [List.find?, hf, ha, hm, hw]
  · intro h1 _
    unfold _classify_task
    simp [h1]
  · intro h1 h2 h3 h4
    unfold _classify_task
    simp [h1, h2, h3, h4]

theorem c2_witness :
    hasAnyKeyword (lowerStr ("compare the weather forecast")) forecastKeywords = true
    ∧ hasAnyKeyword (lowerStr ("compare the weather forecast")) multiKeywords = true
    ∧ _classify_task ("compare the weather forecast") = .forecast_analysis :=
  ⟨by decide, by decide,
    (c2_classifier_ordered_first_match ("compare the weather forecast")).2.1
      (by decide) (by decide)⟩

/-- C5 counterexample: the claim says the extracted locations preserve
first-seen order in the query TEXT; for "tokyo london" the code returns
["London", "Tokyo"] although "tokyo" occurs first in the text, so the
output is not in text order. -/
theorem c5_counterexample :
    _extract_locations ("tokyo london") = ["London", "Tokyo"]
    ∧ occIdx ("tokyo london") "Tokyo" = 0
    ∧ occIdx ("tokyo london") "London" = 6
    ∧ ¬ inTextOrder ("tokyo london") (_extract_locations ("tokyo london")) :=
  ⟨by decide, by decide, by decide, by decide⟩

/-- C5 (amended): `extractLocations` returns the recognized place names
with duplicates removed — each duplicate collapses to one entry at the position
of the first occurrence in the matched-name list — and the output
order is the fixed gazetteer scan order (cities then US states), as a
sublist of the matched-name list, not the first-seen order in the query
text; being a pure function it yields identical output on repeated
runs. -/
theorem c5_dedup_gazetteer_order (q : String) :
    (_extract_locations q).Nodup
    ∧ (∀ x, x ∈ _extract_locations q ↔ x ∈ matchedLocations q)
    ∧ List.Sublist (_extract_locations q) (matchedLocations q)
    ∧ _extract_locations q
        = List.foldl (fun acc x => if x ∈ acc then acc else acc ++ [x]) []
            (matchedLocations q) :=
  ⟨nodup_dedupFirst _, fun x => mem_dedupFirst x _, sublist_dedupFirst _,
    by rw [dedupFirst_eq_insert_foldl, List.nil_append]; rfl⟩

theorem c5_witness :
    (_extract_locations ("tokyo new york")).Nodup
    ∧ ("New York" ∈ _extract_locations ("tokyo new york")
        ↔ "New York" ∈ matchedLocations ("tokyo new york")) :=
  ⟨(c5_dedup_gazetteer_order ("tokyo new york")).1,
    (c5_dedup_gazetteer_order ("tokyo new york")).2.1 ("New York")⟩

/-- C6: for every query classified as AlertMonitoring, `process_query`
issues at most one alerts-tool call: it calls the alerts source exactly
for the first resolved location that maps to a known state code (the
`Option.toList` of `findSome?`), so a query mentioning two region-coded
locations issues exactly one call, for the first of them. -/
theorem c6_single_alert_call (wt : String → WeatherToolResult)
    (ft : ℚ × ℚ → ToolValue) (alertsTool : String → ToolValue) (q : String)
    (h : _classify_task q = .alert_monitoring) :
    (process_query wt ft alertsTool q).alertCalls
        = ((_extract_locations q).findSome? _get_state_code).toList
    ∧ (process_query wt ft alertsTool q).alertCalls.length ≤ 1 := by
  have h1 : (process_query wt ft alertsTool q).alertCalls
      = ((_extract_locations q).findSome? _get_state_code).toList := by
    show (gatherData wt ft alertsTool (_classify_task q) (_extract_locations q)).2 = _
    rw [h]
    unfold gatherData
    cases hloc : _extract_locations q with
    | nil => simp
    | cons a rest => simpa using gatherAlertsLoop_calls alertsTool (a :: rest)
  refine ⟨h1, ?_⟩
  rw [h1]
  cases (_extract_locations q).findSome? _get_state_code <;> simp

theorem c6_witness :
    _classify_task ("any storm alerts for california and texas") = .alert_monitoring
    ∧ (process_query c7WeatherTool constForecastTool constAlertsTool
        ("any storm alerts for california and texas")).alertCalls
        = ((_extract_locations ("any storm alerts for california and texas")).findSome?
            _get_state_code).toList
    ∧ (process_query c7WeatherTool constForecastTool constAlertsTool
        ("any storm alerts for california and texas")).alertCalls.length ≤ 1 :=
  ⟨by decide,
    (c6_single_alert_call c7WeatherTool constForecastTool constAlertsTool _ (by decide)).1,
    (c6_single_alert_call c7WeatherTool constForecastTool constAlertsTool _ (by decide)).2⟩

theorem roundHalfEven_mcp_half : roundHalfEven ((85:ℚ)/100 * 10) = 8 := by
  rw [show ((85:ℚ)/100 * 10) = 17/2 by norm_num]
  unfold roundHalfEven
  dsimp only
  rw [show ⌊(17/2:ℚ)⌋ = 8 from by norm_num [Int.floor_eq_iff]]
  rw [if_neg (by push_cast; norm_num), if_pos (by push_cast; norm_num),
    if_pos (by decide)]

/-- The Python `int(reliability * 10)` truncation coincides with Python
`round(reliability * 10)` (round half to even) on all three fixed
reliability constants. -/
theorem sourceWeight_eq_pythonRound (s : DataSource) :
    sourceWeight s = (roundHalfEven (source_reliability s * 10)).toNat := by
  cases s
  · rw [sourceWeight_nws,
      roundHalfEven_intCast
        (show source_reliability .nws * 10 = ((9:ℤ):ℚ) by
          unfold source_reliability; norm_num)]
    rfl
  · rw [sourceWeight_wttr,
      roundHalfEven_intCast
        (show source_reliability .wttr * 10 = ((8:ℤ):ℚ) by
          unfold source_reliability; norm_num)]
    rfl
  · rw [sourceWeight_mcp,
      show roundHalfEven (source_reliability .mcp * 10) = 8 from roundHalfEven_mcp_half]
    rfl

/-- C3: if every source fetch fails the consensus call returns the
structured no-data failure and no `WeatherConsensus` is produced; if at
least one source succeeds, a `WeatherConsensus` is produced whose
`source_count` and `data_sources` report exactly the successful
sources. -/
theorem c3_no_data_failure_or_success_reporting (condOrder : List String)
    (loc : String) (results : DataSource → Option SourceData) :
    ((∀ s, results s = none) →
      get_consensus_weather condOrder loc results
        = .failure ("No weather data sources available"))
    ∧ (∀ s₀ d₀, results s₀ = some d₀ →
        ∃ c : WeatherConsensus,
          get_consensus_weather condOrder loc results
              = .success loc c (successList results).length c.confidence_score
          ∧ c.source_count = (successList results).length
          ∧ c.data_sources = (successList results).map (fun p => p.2.source)) := by
  constructor
  · intro hall
    unfold get_consensus_weather
    have hsl : successList results = [] := by
      simp [successList, sourceOrder, hall]
    rw [hsl]
    simp
  · intro s₀ d₀ h₀
    have hmem : (s₀, d₀) ∈ successList results := by
      apply List.mem_filterMap.mpr
      exact ⟨s₀, by cases s₀ <;> simp [sourceOrder], by simp [h₀]⟩
    have hne : successList results ≠ [] := by
      intro hc
      rw [hc] at hmem
      exact absurd hmem (List.not_mem_nil _)
    refine ⟨_create_consensus condOrder (successList results), ?_, rfl, rfl⟩
    unfold get_consensus_weather
    rw [if_neg hne]

theorem c3_witness :
    get_consensus_weather [] "Nowhere" (fun _ => none)
        = .failure ("No weather data sources available")
    ∧ ∃ c : WeatherConsensus,
        get_consensus_weather ["Fog"] "Tokyo" c10Results
            = .success ("Tokyo") c (successList c10Results).length c.confidence_score
        ∧ c.source_count = (successList c10Results).length
        ∧ c.data_sources = (successList c10Results).map (fun p => p.2.source) :=
  ⟨(c3_no_data_failure_or_success_reporting [] "Nowhere" (fun _ => none)).1
      (fun _ => rfl),
    (c3_no_data_failure_or_success_reporting ["Fog"] "Tokyo" c10Results).2
      .wttr ⟨68, 71, "Fog", "WTTR"⟩ rfl⟩

/-- C4: the temperature and humidity of each successful observation are
replicated `round(reliability[source] * 10)` times (Python
round-half-to-even, which equals the int truncation of the code on the
three fixed constants), and the consensus temperature and humidity are the
arithmetic means of the replicated populations rounded to one decimal
place. -/
theorem c4_replicated_weighted_mean (condOrder : List String)
    (sr : List (DataSource × SourceData)) (h : sr ≠ []) :
    (∀ s, sourceWeight s = (roundHalfEven (source_reliability s * 10)).toNat)
    ∧ replicatedTemps sr
        = (sr.map (fun p =>
            List.replicate ((roundHalfEven (source_reliability p.1 * 10)).toNat)
              p.2.temperature)).flatten
    ∧ replicatedHums sr
        = (sr.map (fun p =>
            List.replicate ((roundHalfEven (source_reliability p.1 * 10)).toNat)
              p.2.humidity)).flatten
    ∧ (_create_consensus condOrder sr).temperature
        = roundTo 1 (listMean (replicatedTemps sr))
    ∧ (_create_consensus condOrder sr).humidity
        = roundTo 1 (listMean (replicatedHums sr)) := by
  refine ⟨sourceWeight_eq_pythonRound, ?_, ?_, ?_, ?_⟩
  · simp only [replicatedTemps, sourceWeight_eq_pythonRound]
  · simp only [replicatedHums, sourceWeight_eq_pythonRound]
  · show roundTo 1 (if replicatedTemps sr = [] then 70 else listMean (replicatedTemps sr)) = _
    rw [if_neg (replicatedTemps_ne_nil h)]
  · show roundTo 1 (if replicatedHums sr = [] then 50 else listMean (replicatedHums sr)) = _
    rw [if_neg (replicatedHums_ne_nil h)]

theorem c4_witness :
    c8Observations ≠ []
    ∧ (_create_consensus ["Rain", "Clear"] c8Observations).temperature
        = roundTo 1 (listMean (replicatedTemps c8Observations)) :=
  ⟨by simp [c8Observations],
    (c4_replicated_weighted_mean ["Rain", "Clear"] c8Observations
      (by simp [c8Observations])).2.2.2.1⟩

/-- C10 (implicit): when exactly one source succeeds, the replicated
temperature population is identical copies of the temperature of
that source, the sample variance is 0, and the returned
confidence_score is exactly 1 (not the 0.5 floor) with source_count
1. -/
theorem c10_single_source_full_confidence (condOrder : List String)
    (results : DataSource → Option SourceData) (s₀ : DataSource) (d₀ : SourceData)
    (h₀ : results s₀ = some d₀) (hrest : ∀ s, s ≠ s₀ → results s = none) :
    replicatedTemps (successList results)
        = List.replicate (sourceWeight s₀) d₀.temperature
    ∧ tempVariance (successList results) = 0
    ∧ (_create_consensus condOrder (successList results)).confidence_score = 1
    ∧ (_create_consensus condOrder (successList results)).source_count = 1 := by
  have hsl : successList results = [(s₀, d₀)] := by
    cases s₀ with
    | nws =>
      have h1 := hrest .wttr (by decide)
      have h2 := hrest .mcp (by decide)
      simp [successList, sourceOrder, h₀, h1, h2]
    | wttr =>
      have h1 := hrest .nws (by decide)
      have h2 := hrest .mcp (by decide)
      simp [successList, sourceOrder, h₀, h1, h2]
    | mcp =>
      have h1 := hrest .nws (by decide)
      have h2 := hrest .wttr (by decide)
      simp [successList, sourceOrder, h₀, h1, h2]
  have hrep : replicatedTemps [(s₀, d₀)]
      = List.replicate (sourceWeight s₀) d₀.temperature := by
    simp [replicatedTemps]
  have hvar : tempVariance [(s₀, d₀)] = 0 := by
    unfold tempVariance
    rw [hrep, List.length_replicate]
    split
    · next hlt => exact sampleVariance_replicate _ (by omega) _
    · rfl
  have hconf : (_create_consensus condOrder [(s₀, d₀)]).confidence_score = 1 := by
    show roundTo 2 (max (1/2) (1 - tempVariance [(s₀, d₀)] / 100)) = 1
    rw [hvar, show (1 : ℚ) - 0/100 = 1 by norm_num,
      max_eq_right (by norm_num : (1/2 : ℚ) ≤ 1)]
    unfold roundTo
    rw [roundHalfEven_intCast (by norm_num : (1:ℚ) * 10 ^ 2 = ((100:ℤ):ℚ))]
    norm_num
  rw [hsl]
  exact ⟨hrep, hvar, hconf, rfl⟩

theorem c10_witness :
    (_create_consensus ["Fog"] (successList c10Results)).confidence_score = 1
    ∧ (_create_consensus ["Fog"] (successList c10Results)).source_count = 1 :=
  ⟨(c10_single_source_full_confidence ["Fog"] c10Results .wttr ⟨68, 71, "Fog", "WTTR"⟩
      rfl (fun s hs => by cases s <;> first | rfl | exact absurd rfl hs)).2.2.1,
    (c10_single_source_full_confidence ["Fog"] c10Results .wttr ⟨68, 71, "Fog", "WTTR"⟩
      rfl (fun s hs => by cases s <;> first | rfl | exact absurd rfl hs)).2.2.2⟩

theorem tempVariance_c1Cex : tempVariance (successList c1CexResults) = 306/289 := by
  have hsl : successList c1CexResults
      = [(.nws, ⟨72, 50, "Clear", "NWS"⟩), (.wttr, ⟨74, 60, "Clear", "WTTR"⟩)] := rfl
  have hrep : replicatedTemps (successList c1CexResults)
      = List.replicate 9 (72:ℚ) ++ List.replicate 8 (74:ℚ) := by
    rw [hsl]
    simp [replicatedTemps, sourceWeight_nws, sourceWeight_wttr]
  have hmean : listMean (List.replicate 9 (72:ℚ) ++ List.replicate 8 (74:ℚ))
      = 1240/17 := by
    unfold listMean
    simp [List.sum_append, List.sum_replicate, nsmul_eq_mul]
    norm_num
  unfold tempVariance
  rw [hrep, if_pos (by simp)]
  unfold sampleVariance
  rw [hmean]
  simp [List.map_append, List.map_replicate, List.sum_append, List.sum_replicate,
    nsmul_eq_mul]
  norm_num

theorem tempVariance_c1Floor : tempVariance (successList c1FloorResults) = 68850/289 := by
  have hsl : successList c1FloorResults
      = [(.nws, ⟨60, 50, "Rain", "NWS"⟩), (.wttr, ⟨90, 40, "Clear", "WTTR"⟩)] := rfl
  have hrep : replicatedTemps (successList c1FloorResults)
      = List.replicate 9 (60:ℚ) ++ List.replicate 8 (90:ℚ) := by
    rw [hsl]
    simp [replicatedTemps, sourceWeight_nws, sourceWeight_wttr]
  have hmean : listMean (List.replicate 9 (60:ℚ) ++ List.replicate 8 (90:ℚ))
      = 1260/17 := by
    unfold listMean
    simp [List.sum_append, List.sum_replicate, nsmul_eq_mul]
    norm_num
  unfold tempVariance
  rw [hrep, if_pos (by simp)]
  unfold sampleVariance
  rw [hmean]
  simp [List.map_append, List.map_replicate, List.sum_append, List.sum_replicate,
    nsmul_eq_mul]
  norm_num

/-- C1 counterexample: the returned confidence score is the formula
value rounded to TWO DECIMALS (`round(confidence, 2)`), which differs
from the raw `max(0.5, 1 - variance/100)` for the two observations
NWS 72° / WTTR 74° (score 0.99, formula 841/850 ≈ 0.98941). -/
theorem c1_counterexample :
    (_create_consensus ["Clear"] (successList c1CexResults)).confidence_score
      ≠ max (1/2) (1 - tempVariance (successList c1CexResults) / 100) := by
  have hconf : (_create_consensus ["Clear"] (successList c1CexResults)).confidence_score
      = 99/100 := by
    show roundTo 2 (max (1/2) (1 - tempVariance (successList c1CexResults) / 100))
        = 99/100
    rw [tempVariance_c1Cex,
      show (1:ℚ) - (306/289)/100 = 841/850 by norm_num,
      max_eq_right (by norm_num : (1:ℚ)/2 ≤ 841/850)]
    unfold roundTo
    rw [roundHalfEven_of_frac_gt
      (show ⌊(841:ℚ)/850 * 10 ^ 2⌋ = 98 from by norm_num [Int.floor_eq_iff])
      (by push_cast; norm_num)]
    norm_num
  rw [hconf, tempVariance_c1Cex,
    show (1:ℚ) - (306/289)/100 = 841/850 by norm_num,
    max_eq_right (by norm_num : (1:ℚ)/2 ≤ 841/850)]
  norm_num

/-- C1 (amended): for every call with at least one successful
observation the returned confidence score equals
`round(max(0.5, 1 - variance(replicated temperatures)/100), 2)` — the
claimed formula rounded to two decimal places — hence it always lies in
[0.5, 1.0]; for the two observations 60° ("Rain") and 90° ("Clear") it
is exactly the floor value 0.5. -/
theorem c1_confidence_rounded_formula :
    (∀ (condOrder : List String) (sr : List (DataSource × SourceData)), sr ≠ [] →
      (_create_consensus condOrder sr).confidence_score
          = roundTo 2 (max (1/2) (1 - tempVariance sr / 100))
      ∧ 1/2 ≤ (_create_consensus condOrder sr).confidence_score
      ∧ (_create_consensus condOrder sr).confidence_score ≤ 1)
    ∧ (_create_consensus ["Rain", "Clear"] (successList c1FloorResults)).confidence_score
        = 1/2 := by
  constructor
  · intro condOrder sr _
    have heq : (_create_consensus condOrder sr).confidence_score
        = roundTo 2 (max (1/2) (1 - tempVariance sr / 100)) := rfl
    have hv := tempVariance_nonneg sr
    have h1 : (1:ℚ)/2 ≤ max (1/2) (1 - tempVariance sr / 100) := le_max_left _ _
    have h2 : max ((1:ℚ)/2) (1 - tempVariance sr / 100) ≤ 1 := by
      apply max_le (by norm_num)
      have h3 : 0 ≤ tempVariance sr / 100 := by positivity
      linarith
    obtain ⟨hb1, hb2⟩ := roundTo_two_bounds h1 h2
    exact ⟨heq, by rw [heq]; exact hb1, by rw [heq]; exact hb2⟩
  · show roundTo 2 (max (1/2) (1 - tempVariance (successList c1FloorResults) / 100)) = 1/2
    rw [tempVariance_c1Floor,
      show (1:ℚ) - (68850/289)/100 = -(39950/28900) by norm_num,
      max_eq_left (by norm_num : -((39950:ℚ)/28900) ≤ 1/2)]
    unfold roundTo
    rw [roundHalfEven_intCast (by norm_num : (1:ℚ)/2 * 10 ^ 2 = ((50:ℤ):ℚ))]
    norm_num

theorem c1_witness :
    c8Observations ≠ []
    ∧ 1/2 ≤ (_create_consensus ["Rain", "Clear"] c8Observations).confidence_score
    ∧ (_create_consensus ["Rain", "Clear"] c8Observations).confidence_score ≤ 1 :=
  ⟨by simp [c8Observations],
    (c1_confidence_rounded_formula.1 ["Rain", "Clear"] c8Observations
      (by simp [c8Observations])).2.1,
    (c1_confidence_rounded_formula.1 ["Rain", "Clear"] c8Observations
      (by simp [c8Observations])).2.2⟩

/-- C8 counterexample: the consensus condition is computed by Python
`max(set(conditions), key=conditions.count)`; under the legal set
iteration order ["Clear", "Rain"] of the tied conditions
["Rain", "Clear"], the code returns "Clear", not the first-occurring
"Rain" demanded by the claimed tie-break. -/
theorem c8_counterexample :
    validSetOrder ["Clear", "Rain"] (conditionsList c8Observations)
    ∧ (_create_consensus ["Clear", "Rain"] c8Observations).conditions = "Clear"
    ∧ firstOccurrenceMode (conditionsList c8Observations) = "Rain"
    ∧ (_create_consensus ["Clear", "Rain"] c8Observations).conditions
        ≠ firstOccurrenceMode (conditionsList c8Observations) :=
  ⟨by decide, by decide, by decide, by decide⟩

/-- C8 (amended): the consensus condition text is A most-frequent value
of the raw, unreplicated per-source condition strings, under every
possible iteration order of `set(conditions)`; which tied value wins is
determined by that (hash-dependent) set order, not by first occurrence
in source-iteration order. -/
theorem c8_mode_under_set_order (condOrder : List String)
    (sr : List (DataSource × SourceData))
    (hv : validSetOrder condOrder (conditionsList sr)) (hne : sr ≠ []) :
    (_create_consensus condOrder sr).conditions ∈ conditionsList sr
    ∧ ∀ c ∈ conditionsList sr,
        (conditionsList sr).count c
          ≤ (conditionsList sr).count (_create_consensus condOrder sr).conditions := by
  obtain ⟨hnd, hsub, hsup⟩ := hv
  have hcne : conditionsList sr ≠ [] := by
    intro hc
    cases sr with
    | nil => exact hne rfl
    | cons p rest => simp [conditionsList] at hc
  obtain ⟨c0, hc0⟩ : ∃ c0, c0 ∈ conditionsList sr := by
    cases hcl : conditionsList sr with
    | nil => exact absurd hcl hcne
    | cons a l => exact ⟨a, List.mem_cons_self _ _⟩
  have hcord : c0 ∈ condOrder := hsup c0 hc0
  cases hord : condOrder with
  | nil =>
    rw [hord] at hcord
    exact absurd hcord (List.not_mem_nil _)
  | cons y ys =>
    have hcond : (_create_consensus (y :: ys) sr).conditions
        = List.foldl (pyMaxStep (fun c => (conditionsList sr).count c)) y ys := by
      show (if conditionsList sr = [] then ("Unknown")
        else pyMaxByD (fun c => (conditionsList sr).count c) "Unknown" (y :: ys)) = _
      rw [if_neg hcne]
      rfl
    obtain ⟨hmem, hykey, hall⟩ := pyMax_foldl_spec
      (fun c => (conditionsList sr).count c) ys y
    constructor
    · rw [hcond]
      rcases hmem with heq | hm
      · rw [heq]
        exact hsub y (by rw [hord]; exact List.mem_cons_self _ _)
      · exact hsub _ (by rw [hord]; exact List.mem_cons_of_mem _ hm)
    · intro c hc
      have hcord2 : c ∈ y :: ys := by
        rw [← hord]
        exact hsup c hc
      rw [hcond]
      rcases List.mem_cons.mp hcord2 with rfl | hcys
      · exact hykey
      · exact hall c hcys

theorem c8_witness :
    validSetOrder ["Rain", "Clear"] (conditionsList c8Observations)
    ∧ (_create_consensus ["Rain", "Clear"] c8Observations).conditions
        ∈ conditionsList c8Observations :=
  ⟨by decide,
    (c8_mode_under_set_order ["Rain", "Clear"] c8Observations (by decide)
      (by simp [c8Observations])).1⟩

/-- C7: for a multi-location query resolving to two locations where the
current-conditions fetch for the first location errors and the second
succeeds, `process_query` still returns `success = true` and renders
one explanatory error line for the failed location and one normal
weather line for the other. -/
theorem c7_failure_isolation (wt : String → WeatherToolResult)
    (ft : ℚ × ℚ → ToolValue) (alertsTool : String → ToolValue)
    (q l₁ l₂ e c t d : String)
    (hc : _classify_task q = .multi_location)
    (hl : _extract_locations q = [l₁, l₂]) :
    (wt l₁ = .err e → wt l₂ = .ok c t d →
      (process_query wt ft alertsTool q).success = true
      ∧ (process_query wt ft alertsTool q).response
          = "🗺️ Weather comparison:\n"
              ++ joinWith ("\n")
                  ["   " ++ multiErrorLine l₁ e, "   " ++ multiOkLine c t d])
    ∧ (wt l₁ = .ok c t d → wt l₂ = .err e →
      (process_query wt ft alertsTool q).success = true
      ∧ (process_query wt ft alertsTool q).response
          = "🗺️ Weather comparison:\n"
              ++ joinWith ("\n")
                  ["   " ++ multiOkLine c t d, "   " ++ multiErrorLine l₂ e]) := by
  have hne : lowerStr l₂ ≠ lowerStr l₁ := Ne.symm (extract_pair_lower_ne hl)
  have hbeq : (lowerStr l₂ == lowerStr l₁) = false := beq_eq_false_iff_ne.mpr hne
  constructor
  · intro h1 h2
    refine ⟨rfl, ?_⟩
    show _format_response (_classify_task q)
        (gatherData wt ft alertsTool (_classify_task q) (_extract_locations q)).1
        (_extract_locations q) = _
    rw [hc, hl]
    have hlook1 : List.lookup (lowerStr l₁)
        [(lowerStr l₁, WeatherToolResult.err e), (lowerStr l₂, WeatherToolResult.ok c t d)]
        = some (WeatherToolResult.err e) := by
      simp [List.lookup]
    have hlook2 : List.lookup (lowerStr l₂)
        [(lowerStr l₁, WeatherToolResult.err e), (lowerStr l₂, WeatherToolResult.ok c t d)]
        = some (WeatherToolResult.ok c t d) := by
      simp [List.lookup, hbeq]
    unfold gatherData _format_response
    simp [h1, h2, hlook1, hlook2, multiErrorLine, multiOkLine, joinWith,
      String.append_assoc]
  · intro h1 h2
    refine ⟨rfl, ?_⟩
    show _format_response (_classify_task q)
        (gatherData wt ft alertsTool (_classify_task q) (_extract_locations q)).1
        (_extract_locations q) = _
    rw [hc, hl]
    have hlook1 : List.lookup (lowerStr l₁)
        [(lowerStr l₁, WeatherToolResult.ok c t d), (lowerStr l₂, WeatherToolResult.err e)]
        = some (WeatherToolResult.ok c t d) := by
      simp [List.lookup]
    have hlook2 : List.lookup (lowerStr l₂)
        [(lowerStr l₁, WeatherToolResult.ok c t d), (lowerStr l₂, WeatherToolResult.err e)]
        = some (WeatherToolResult.err e) := by
      simp [List.lookup, hbeq]
    unfold gatherData _format_response
    simp [h1, h2, hlook1, hlook2, multiErrorLine, multiOkLine, joinWith,
      String.append_assoc]

theorem c7_witness :
    _classify_task ("compare london paris") = .multi_location
    ∧ _extract_locations ("compare london paris") = ["London", "Paris"]
    ∧ (process_query c7WeatherTool constForecastTool constAlertsTool
        ("compare london paris")).success = true :=
  ⟨by decide, by decide,
    ((c7_failure_isolation c7WeatherTool constForecastTool constAlertsTool
      ("compare london paris") "London" "Paris"
      "Weather server returned status 500: boom" "Paris" "18" "Partly cloudy"
      (by decide) (by decide)).1 rfl rfl).1⟩

/-- C9 counterexample: as stated the claim fails — a successful
response whose text contains "severe storm warning" AND one of the
later-checked terms ("record" here) triggers exactly one alert, but the
later sequential severity assignment OVERWRITES HIGH with MEDIUM. -/
theorem c9_counterexample :
    (c9BadOrch (weatherQueryFor ("Miami"))).success = true
    ∧ strContains (lowerStr (c9BadOrch (weatherQueryFor ("Miami"))).response)
        "severe storm warning" = true
    ∧ (check_alerts_for_all_subscriptions c9BadOrch
        (setup_smart_alerts [] ["Miami"])).map TriggeredAlert.severity = ["medium"]
    ∧ (check_alerts_for_all_subscriptions c9BadOrch
        (setup_smart_alerts [] ["Miami"])).map TriggeredAlert.severity ≠ ["high"] :=
  ⟨rfl, by decide, by decide, by decide⟩

/-- C9 (amended): setting up one subscription for a single location and
immediately checking all subscriptions, when the weather query succeeds
and its response text contains "severe storm warning" and contains
NONE of the severity-overwriting terms ("extreme", "record", "flight",
"delay", "cancel", "closure"), produces exactly one TriggeredAlert for
that location with severity "high". -/
theorem c9_roundtrip_high_alert (orch : String → OrchResult) (loc : String)
    (hs : (orch (weatherQueryFor loc)).success = true)
    (hw : strContains (lowerStr (orch (weatherQueryFor loc)).response)
        "severe storm warning" = true)
    (hx1 : strContains (lowerStr (orch (weatherQueryFor loc)).response)
        "extreme" = false)
    (hx2 : strContains (lowerStr (orch (weatherQueryFor loc)).response)
        "record" = false)
    (ht1 : strContains (lowerStr (orch (weatherQueryFor loc)).response)
        "flight" = false)
    (ht2 : strContains (lowerStr (orch (weatherQueryFor loc)).response)
        "delay" = false)
    (ht3 : strContains (lowerStr (orch (weatherQueryFor loc)).response)
        "cancel" = false)
    (ht4 : strContains (lowerStr (orch (weatherQueryFor loc)).response)
        "closure" = false) :
    check_alerts_for_all_subscriptions orch (setup_smart_alerts [] [loc])
      = [⟨loc, "high", ["Severe weather detected"],
          (orch (weatherQueryFor loc)).response⟩] := by
  have hstorm : strContains (lowerStr (orch (weatherQueryFor loc)).response)
      "storm" = true :=
    strContains_trans hw (by decide)
  have hsev : severeWeatherTerms.any
      (fun term => strContains (lowerStr (orch (weatherQueryFor loc)).response) term)
      = true := by
    apply List.any_eq_true.mpr
    exact ⟨"storm", by decide, hstorm⟩
  have htrav : travelTerms.any
      (fun term => strContains (lowerStr (orch (weatherQueryFor loc)).response) term)
      = false := by
    simp [travelTerms, ht1, ht2, ht3, ht4]
  unfold check_alerts_for_all_subscriptions setup_smart_alerts
  simp only [List.nil_append, List.map_cons, List.map_nil, List.flatten_cons,
    List.flatten_nil, List.append_nil, if_pos]
  simp only [List.filterMap_cons, List.filterMap_nil, hs, if_true]
  unfold _analyze_for_alerts
  simp [hsev, hx1, hx2, htrav]

theorem c9_witness :
    (c9GoodOrch (weatherQueryFor ("Miami"))).success = true
    ∧ strContains (lowerStr (c9GoodOrch (weatherQueryFor ("Miami"))).response)
        "severe storm warning" = true
    ∧ check_alerts_for_all_subscriptions c9GoodOrch (setup_smart_alerts [] ["Miami"])
        = [⟨"Miami", "high", ["Severe weather detected"],
            (c9GoodOrch (weatherQueryFor ("Miami"))).response⟩] :=
  ⟨rfl, by decide,
    c9_roundtrip_high_alert c9GoodOrch ("Miami") rfl (by decide) (by decide) (by decide)
      (by decide) (by decide) (by decide) (by decide)⟩
